import Mathlib

/-!
Verification of the subscription-service handlers (Go + Postgres) against its
specification.  The handlers in `handlers/handlers.go` are embedded shallowly:
the store (table `subscriptions`, primary key `(user_id, service_name)`) is a
list of records, each HTTP handler is a function from its bound parameters and
the store to a new store and an HTTP-level result, and the SQL statements are
translated to list operations with the same observable behaviour.
-/

namespace SubService

/-- A timestamp at day granularity, as used for the `start_date`/`end_date`
`TIMESTAMP` columns.  Every date handled by the service has day = 1 after
`toFirstDayOfMonth`; the day field is kept to mirror `time.Time`. -/
structure Date where
  year : Nat
  month : Nat
  day : Nat
deriving DecidableEq, Repr

/-- Go's zero `time.Time` value, 0001-01-01: what `parseMonthYear` returns for
the empty string. -/
def goZeroTime : Date := ⟨1, 1, 1⟩

/-- Chronological order on timestamps (the SQL `<=` on the date columns). -/
def dateLE (a b : Date) : Bool :=
  decide (a.year < b.year ∨
    (a.year = b.year ∧ (a.month < b.month ∨ (a.month = b.month ∧ a.day ≤ b.day))))

/-- Numeric value of a decimal digit character. -/
def digitVal (c : Char) : Nat := c.toNat - 48

/-- Embeds `parseMonthYear` from `handlers.go`: an empty string yields Go's
zero time with no error; otherwise `time.Parse("01-2006", s)` demands exactly
two month digits, a dash, four year digits, and a month in 01..12 (the parsed
day defaults to 1).  `none` is the error case. -/
def parseMonthYear (s : String) : Option Date :=
  match s.data with
  | [] => some goZeroTime
  | [m1, m2, dash, y1, y2, y3, y4] =>
    if dash = '-' ∧ m1.isDigit = true ∧ m2.isDigit = true ∧ y1.isDigit = true ∧
        y2.isDigit = true ∧ y3.isDigit = true ∧ y4.isDigit = true then
      let m := digitVal m1 * 10 + digitVal m2
      let y := digitVal y1 * 1000 + digitVal y2 * 100 + digitVal y3 * 10 + digitVal y4
      if 1 ≤ m ∧ m ≤ 12 then some ⟨y, m, 1⟩ else none
    else none
  | _ => none

/-- Decimal digits of `n`, left-padded with `'0'` to width 2 (Go's
`Format` for the layout fragment `"01"`). -/
def pad2 (n : Nat) : List Char :=
  if n < 100 then [Nat.digitChar (n / 10), Nat.digitChar (n % 10)]
  else Nat.toDigits 10 n

/-- Decimal digits of `n`, left-padded with `'0'` to width 4 (Go's
`Format` for the layout fragment `"2006"`). -/
def pad4 (n : Nat) : List Char :=
  if n < 10000 then
    [Nat.digitChar (n / 1000), Nat.digitChar (n / 100 % 10),
     Nat.digitChar (n / 10 % 10), Nat.digitChar (n % 10)]
  else Nat.toDigits 10 n

/-- Embeds `formatMonthYear` from `handlers.go`: `t.Format("01-2006")`. -/
def formatMonthYear (d : Date) : String := ⟨pad2 d.month ++ '-' :: pad4 d.year⟩

/-- Embeds `toFirstDayOfMonth` from `handlers.go`. -/
def toFirstDayOfMonth (d : Date) : Date := ⟨d.year, d.month, 1⟩

/-- Hexadecimal digit, either case. -/
def isHexDigit (c : Char) : Bool :=
  c.isDigit || decide ('a' ≤ c ∧ c ≤ 'f') || decide ('A' ≤ c ∧ c ≤ 'F')

/-- The `binding:"uuid"` validator check used for the `user_id` path
parameter: the canonical 8-4-4-4-12 dashed hexadecimal form. -/
def isValidUUID (s : String) : Bool :=
  let cs := s.data
  cs.length == 36 &&
  ((List.range 36).all fun i =>
    if i == 8 || i == 13 || i == 18 || i == 23 then cs.getD i ' ' == '-'
    else isHexDigit (cs.getD i ' '))

/-- Models the storage layer's parse of a string bound to the `UUID` column
(Postgres `uuid` input): optional surrounding braces, hyphens ignored,
32 hexadecimal digits of either case.  This is deliberately lenient about
hyphen placement, so that `uuidCastOk s = false` guarantees the real cast
fails and the query errors out. -/
def uuidCastOk (s : String) : Bool :=
  let cs := s.data
  let core :=
    if cs.head? = some '\x7b' ∧ cs.getLast? = some '\x7d'
    then (cs.drop 1).dropLast else cs
  let hex := core.filter (fun c => c != '-')
  hex.length == 32 && hex.all isHexDigit

/-- A row of the `subscriptions` table (`models.Subscription` before date
formatting): `service_name TEXT`, `price INTEGER`, `user_id UUID`,
`start_date TIMESTAMP NOT NULL`, `end_date TIMESTAMP` nullable. -/
structure Subscription where
  serviceName : String
  price : Int
  userId : String
  startDate : Date
  endDate : Option Date
deriving DecidableEq, Repr

/-- The store: the `subscriptions` table contents, in insertion order. -/
abbrev Store := List Subscription

/-- The JSON shape of `models.Subscription` as returned to clients, dates
formatted back to MM-YYYY; `endDate = none` means the field is omitted
(`json:"end_date,omitempty"`). -/
structure SubscriptionOut where
  serviceName : String
  price : Int
  userId : String
  startDate : String
  endDate : Option String
deriving DecidableEq, Repr

/-- `models.SubscriptionRequest`: the JSON body of Create/Update.  An absent
JSON field binds to the Go zero value, so "missing" and "zero" coincide. -/
structure SubscriptionRequest where
  serviceName : String
  price : Int
  startDate : String
  endDate : String
deriving DecidableEq, Repr

/-- `models.CompositeKey`: the URI path parameters. -/
structure CompositeKey where
  userId : String
  serviceName : String
deriving DecidableEq, Repr

/-- `models.FilterParams`: the query parameters of List/TotalCost.  No
`binding` tags, so `ShouldBindQuery` never rejects them. -/
structure FilterParams where
  userId : String
  serviceName : String
  startDate : String
  endDate : String
deriving DecidableEq, Repr

/-- The payload of a successful Delete. -/
structure DeleteOut where
  message : String
  serviceName : String
  userId : String
deriving DecidableEq, Repr

/-- Outcome of a handler: an HTTP status with either a JSON payload or an
error message. -/
inductive HandlerResult (α : Type) where
  | success (status : Nat) (payload : α)
  | failure (status : Nat) (msg : String)
deriving DecidableEq, Repr

/-- `ShouldBindUri` on `models.CompositeKey`: `binding:"required,uuid"` on
`user_id` (the zero string fails `required`) and `binding:"required"` on
`service_name`. -/
def bindCompositeKey (key : CompositeKey) : Bool :=
  key.userId != "" && isValidUUID key.userId && key.serviceName != ""

/-- `ShouldBindJSON` on `models.SubscriptionRequest`:
`service_name binding:"required"`, `price binding:"required,min=0"`
(`required` on an `int` rejects the zero value), `start_date
binding:"required"`. -/
def bindSubscriptionRequest (req : SubscriptionRequest) : Bool :=
  req.serviceName != "" && req.price != 0 && decide (0 ≤ req.price) &&
  req.startDate != ""

/-- The SQL row condition `user_id = uid AND service_name = sname`. -/
def keyMatch (uid sname : String) (r : Subscription) : Bool :=
  r.userId == uid && r.serviceName == sname

/-- Row scan plus date formatting shared by Get/List. -/
def subOut (r : Subscription) : SubscriptionOut :=
  ⟨r.serviceName, r.price, r.userId, formatMonthYear r.startDate,
   r.endDate.map formatMonthYear⟩

/-- The `if req.EndDate != ""` block of Create/Update: empty means a null
`end_date` (`some none`), otherwise the string must parse and is truncated to
the first of the month; `none` is the 400 error case. -/
def parseEndDateField (s : String) : Option (Option Date) :=
  if s == "" then some none
  else
    match parseMonthYear s with
    | none => none
    | some d => some (some (toFirstDayOfMonth d))

/-- Embeds `CreateSubscription`: bind URI, bind JSON, parse/normalize dates,
then `INSERT ... RETURNING`.  A duplicate `(user_id, service_name)` violates
the primary key, which the handler surfaces as a 500. -/
def createSubscription (key : CompositeKey) (req : SubscriptionRequest)
    (st : Store) : Store × HandlerResult SubscriptionOut :=
  if !bindCompositeKey key then (st, .failure 400 "binding error")
  else if !bindSubscriptionRequest req then (st, .failure 400 "binding error")
  else
    match parseMonthYear req.startDate with
    | none => (st, .failure 400 "invalid start_date format, expected MM-YYYY")
    | some sd =>
      let startDate := toFirstDayOfMonth sd
      match parseEndDateField req.endDate with
      | none => (st, .failure 400 "invalid end_date format, expected MM-YYYY")
      | some endDatePtr =>
        if st.any (keyMatch key.userId req.serviceName) then
          (st, .failure 500 "internal server error")
        else
          (st ++ [⟨req.serviceName, req.price, key.userId, startDate, endDatePtr⟩],
           .success 201 ⟨req.serviceName, req.price, key.userId,
             formatMonthYear startDate, endDatePtr.map formatMonthYear⟩)

/-- Embeds `UpdateSubscription`: bind URI, bind JSON, parse/normalize dates,
then `UPDATE ... WHERE user_id = $4 AND service_name = $5 RETURNING` with
`$4` the path `user_id` and `$5` the body `service_name`; zero rows updated
surfaces as `sql.ErrNoRows`, a 404. -/
def updateSubscription (key : CompositeKey) (req : SubscriptionRequest)
    (st : Store) : Store × HandlerResult SubscriptionOut :=
  if !bindCompositeKey key then (st, .failure 400 "binding error")
  else if !bindSubscriptionRequest req then (st, .failure 400 "binding error")
  else
    match parseMonthYear req.startDate with
    | none => (st, .failure 400 "invalid start_date format, expected MM-YYYY")
    | some sd =>
      let startDate := toFirstDayOfMonth sd
      match parseEndDateField req.endDate with
      | none => (st, .failure 400 "invalid end_date format, expected MM-YYYY")
      | some endDatePtr =>
        if st.any (keyMatch key.userId req.serviceName) then
          (st.map fun r =>
            if keyMatch key.userId req.serviceName r then
              { r with price := req.price, startDate := startDate,
                       endDate := endDatePtr }
            else r,
           .success 200 ⟨req.serviceName, req.price, key.userId,
             formatMonthYear startDate, endDatePtr.map formatMonthYear⟩)
        else (st, .failure 404 "subscription not found")

/-- Embeds `GetSubscription`: bind URI, then `SELECT ... WHERE user_id = $1
AND service_name = $2`; `QueryRow` takes the first matching row. -/
def getSubscription (key : CompositeKey) (st : Store) :
    HandlerResult SubscriptionOut :=
  if !bindCompositeKey key then .failure 400 "binding error"
  else
    match st.find? (keyMatch key.userId key.serviceName) with
    | some r => .success 200 (subOut r)
    | none => .failure 404 "subscription not found"

/-- Embeds `DeleteSubscription`: bind URI, then `DELETE ... RETURNING
service_name`; zero rows deleted surfaces as `sql.ErrNoRows`, a 404. -/
def deleteSubscription (key : CompositeKey) (st : Store) :
    Store × HandlerResult DeleteOut :=
  if !bindCompositeKey key then (st, .failure 400 "binding error")
  else
    match st.find? (keyMatch key.userId key.serviceName) with
    | some r =>
      (st.filter fun x => !keyMatch key.userId key.serviceName x,
       .success 200 ⟨"subscription deleted", r.serviceName, key.userId⟩)
    | none => (st, .failure 404 "subscription not found")

/-- Embeds `ListSubscriptions`: `c.Query` performs no validation; the raw
`user_id` string is compared against the `UUID` column, so a string the
storage layer cannot cast makes the query itself fail (a 500). -/
def listSubscriptions (userID serviceName : String) (st : Store) :
    HandlerResult (List SubscriptionOut) :=
  if userID != "" && !uuidCastOk userID then .failure 500 "internal server error"
  else
    .success 200 ((st.filter fun r =>
      (userID == "" || r.userId == userID) &&
      (serviceName == "" || r.serviceName == serviceName)).map subOut)

/-- The row condition of the TotalCost query:
`start_date <= $2 AND (end_date >= $1 OR end_date IS NULL)` plus the
optional `user_id`/`service_name` equality filters. -/
def overlapPred (startDate endDate : Date) (params : FilterParams)
    (r : Subscription) : Bool :=
  dateLE r.startDate endDate &&
  (match r.endDate with
   | some e => dateLE startDate e
   | none => true) &&
  (params.userId == "" || r.userId == params.userId) &&
  (params.serviceName == "" || r.serviceName == params.serviceName)

/-- Embeds `GetTotalCost`: `ShouldBindQuery` on `FilterParams` never fails;
each date goes through `parseMonthYear` (so an empty string becomes Go's zero
time, not an error) and `toFirstDayOfMonth`; then
`SELECT COALESCE(SUM(price), 0) ... ` over `overlapPred`, with a non-castable
`user_id` filter failing the query itself (a 500). -/
def getTotalCost (params : FilterParams) (st : Store) : HandlerResult Int :=
  match parseMonthYear params.startDate with
  | none => .failure 400 "invalid start_date format, expected MM-YYYY"
  | some sd =>
    let startDate := toFirstDayOfMonth sd
    match parseMonthYear params.endDate with
    | none => .failure 400 "invalid end_date format, expected MM-YYYY"
    | some ed =>
      let endDate := toFirstDayOfMonth ed
      if params.userId != "" && !uuidCastOk params.userId then
        .failure 500 "internal server error"
      else
        .success 200
          (((st.filter (overlapPred startDate endDate params)).map
            (fun r => r.price)).sum)

/-- The specification's total (claim C1, stated independently of the
implementation): fold over the stored subscriptions, adding the price of
exactly those that satisfy the optional filters and the overlap rule
`start <= requested end ∧ (end is null ∨ end >= requested start)`. -/
def totalCostSpec (st : Store) (uf sf : String) (reqStart reqEnd : Date) : Int :=
  st.foldl (fun acc r =>
    if (uf = "" ∨ r.userId = uf) ∧ (sf = "" ∨ r.serviceName = sf) ∧
        dateLE r.startDate reqEnd = true ∧
        (r.endDate = none ∨ (r.endDate.map (dateLE reqStart)).getD false = true)
    then acc + r.price else acc) 0

/-- The MM-YYYY pattern of the specification: two digit characters giving a
month 01..12, a dash, four digit characters. -/
def validMMYYYY (s : String) : Bool :=
  match s.data with
  | [m1, m2, dash, y1, y2, y3, y4] =>
    decide (dash = '-' ∧ m1.isDigit = true ∧ m2.isDigit = true ∧
      y1.isDigit = true ∧ y2.isDigit = true ∧ y3.isDigit = true ∧
      y4.isDigit = true ∧
      1 ≤ digitVal m1 * 10 + digitVal m2 ∧ digitVal m1 * 10 + digitVal m2 ≤ 12)
  | _ => false

/-! ## Helper lemmas -/

theorem digitChar_digitVal {c : Char} (h : c.isDigit = true) :
    Nat.digitChar (digitVal c) = c := by
  simp [Char.isDigit] at h
  obtain ⟨h1, h2⟩ := h
  have hc : c = Char.ofNat c.toNat := (Char.ofNat_toNat c).symm
  unfold digitVal
  rw [hc]
  have h1' : 48 ≤ c.toNat := h1
  have h2' : c.toNat ≤ 57 := h2
  interval_cases h : c.toNat <;> decide

theorem digitVal_lt_ten {c : Char} (h : c.isDigit = true) : digitVal c < 10 := by
  simp [Char.isDigit] at h
  obtain ⟨h1, h2⟩ := h
  have h2' : c.toNat ≤ 57 := h2
  unfold digitVal
  omega

theorem pad2_digits {m1 m2 : Char} (h1 : m1.isDigit = true) (h2 : m2.isDigit = true) :
    pad2 (digitVal m1 * 10 + digitVal m2) = [m1, m2] := by
  have b1 := digitVal_lt_ten h1
  have b2 := digitVal_lt_ten h2
  unfold pad2
  rw [if_pos (by omega)]
  have e1 : (digitVal m1 * 10 + digitVal m2) / 10 = digitVal m1 := by omega
  have e2 : (digitVal m1 * 10 + digitVal m2) % 10 = digitVal m2 := by omega
  rw [e1, e2, digitChar_digitVal h1, digitChar_digitVal h2]

theorem pad4_digits {y1 y2 y3 y4 : Char} (h1 : y1.isDigit = true)
    (h2 : y2.isDigit = true) (h3 : y3.isDigit = true) (h4 : y4.isDigit = true) :
    pad4 (digitVal y1 * 1000 + digitVal y2 * 100 + digitVal y3 * 10 + digitVal y4) =
      [y1, y2, y3, y4] := by
  have b1 := digitVal_lt_ten h1
  have b2 := digitVal_lt_ten h2
  have b3 := digitVal_lt_ten h3
  have b4 := digitVal_lt_ten h4
  unfold pad4
  rw [if_pos (by omega)]
  have e1 : (digitVal y1 * 1000 + digitVal y2 * 100 + digitVal y3 * 10 + digitVal y4)
      / 1000 = digitVal y1 := by omega
  have e2 : (digitVal y1 * 1000 + digitVal y2 * 100 + digitVal y3 * 10 + digitVal y4)
      / 100 % 10 = digitVal y2 := by omega
  have e3 : (digitVal y1 * 1000 + digitVal y2 * 100 + digitVal y3 * 10 + digitVal y4)
      / 10 % 10 = digitVal y3 := by omega
  have e4 : (digitVal y1 * 1000 + digitVal y2 * 100 + digitVal y3 * 10 + digitVal y4)
      % 10 = digitVal y4 := by omega
  rw [e1, e2, e3, e4, digitChar_digitVal h1, digitChar_digitVal h2,
    digitChar_digitVal h3, digitChar_digitVal h4]

theorem createSubscription_eq (key : CompositeKey) (req : SubscriptionRequest)
    (st : Store) (sd : Date) (edp : Option Date)
    (hk : bindCompositeKey key = true) (hr : bindSubscriptionRequest req = true)
    (hsd : parseMonthYear req.startDate = some sd)
    (hed : parseEndDateField req.endDate = some edp) :
    createSubscription key req st =
      if st.any (keyMatch key.userId req.serviceName) then
        (st, .failure 500 "internal server error")
      else
        (st ++ [⟨req.serviceName, req.price, key.userId, toFirstDayOfMonth sd, edp⟩],
         .success 201 ⟨req.serviceName, req.price, key.userId,
           formatMonthYear (toFirstDayOfMonth sd), edp.map formatMonthYear⟩) := by
  unfold createSubscription
  rw [hk, hr, hsd, hed]
  rfl

theorem updateSubscription_eq (key : CompositeKey) (req : SubscriptionRequest)
    (st : Store) (sd : Date) (edp : Option Date)
    (hk : bindCompositeKey key = true) (hr : bindSubscriptionRequest req = true)
    (hsd : parseMonthYear req.startDate = some sd)
    (hed : parseEndDateField req.endDate = some edp) :
    updateSubscription key req st =
      if st.any (keyMatch key.userId req.serviceName) then
        (st.map fun r =>
          if keyMatch key.userId req.serviceName r then
            { r with price := req.price, startDate := toFirstDayOfMonth sd,
                     endDate := edp }
          else r,
         .success 200 ⟨req.serviceName, req.price, key.userId,
           formatMonthYear (toFirstDayOfMonth sd), edp.map formatMonthYear⟩)
      else (st, .failure 404 "subscription not found") := by
  unfold updateSubscription
  rw [hk, hr, hsd, hed]
  rfl

theorem foldl_price_eq (p : Subscription → Bool) (st : List Subscription) (acc : Int) :
    st.foldl (fun a r => if p r = true then a + r.price else a) acc =
      acc + ((st.filter p).map (fun r => r.price)).sum := by
  induction st generalizing acc with
  | nil => simp
  | cons r t ih =>
    by_cases hp : p r = true
    · simp [hp, ih, add_assoc]
    · simp [hp, ih]

theorem overlapPred_iff (S E : Date) (params : FilterParams) (r : Subscription) :
    overlapPred S E params r = true ↔
      ((params.userId = "" ∨ r.userId = params.userId) ∧
       (params.serviceName = "" ∨ r.serviceName = params.serviceName) ∧
       dateLE r.startDate E = true ∧
       (r.endDate = none ∨ (r.endDate.map (dateLE S)).getD false = true)) := by
  unfold overlapPred
  cases hre : r.endDate <;>
    simp [Bool.and_eq_true, beq_iff_eq, Bool.or_eq_true] <;> tauto

theorem totalCostSpec_eq_sum (st : Store) (params : FilterParams) (S E : Date) :
    totalCostSpec st params.userId params.serviceName S E =
      ((st.filter (overlapPred S E params)).map (fun r => r.price)).sum := by
  unfold totalCostSpec
  have hfun : (fun (a : Int) (r : Subscription) =>
      if (params.userId = "" ∨ r.userId = params.userId) ∧
          (params.serviceName = "" ∨ r.serviceName = params.serviceName) ∧
          dateLE r.startDate E = true ∧
          (r.endDate = none ∨ (r.endDate.map (dateLE S)).getD false = true)
      then a + r.price else a) =
      (fun (a : Int) (r : Subscription) =>
        if overlapPred S E params r = true then a + r.price else a) := by
    funext a r
    rw [if_congr (Iff.symm (overlapPred_iff S E params r)) rfl rfl]
  rw [hfun, foldl_price_eq, zero_add]

/-! ## Claim theorems -/

/-- C1: for every store state and every TotalCost request with well-formed
dates (and a usable user filter), the returned `total_cost` is the sum of
`price` over exactly the stored subscriptions that satisfy the optional
`user_id`/`service_name` filters and the overlap predicate
`start_date <= requested end ∧ (end_date is null ∨ end_date >= requested
start)`, both requested dates normalized to the first of their month; when
nothing matches, the result is 0, not an error. -/
theorem totalCost_matches_spec (params : FilterParams) (st : Store) (sd ed : Date)
    (_hsne : params.startDate ≠ "") (_hene : params.endDate ≠ "")
    (hs : parseMonthYear params.startDate = some sd)
    (he : parseMonthYear params.endDate = some ed)
    (hu : params.userId = "" ∨ uuidCastOk params.userId = true) :
    getTotalCost params st =
      .success 200 (totalCostSpec st params.userId params.serviceName
        (toFirstDayOfMonth sd) (toFirstDayOfMonth ed)) ∧
    ((∀ r ∈ st, overlapPred (toFirstDayOfMonth sd) (toFirstDayOfMonth ed) params r
        = false) →
      totalCostSpec st params.userId params.serviceName
        (toFirstDayOfMonth sd) (toFirstDayOfMonth ed) = 0) := by
  refine ⟨?_, ?_⟩
  · unfold getTotalCost
    rw [hs, he]
    have hcast : (params.userId != "" && !uuidCastOk params.userId) = false := by
      rcases hu with hu | hu <;> simp [hu]
    rw [hcast]
    simp only [Bool.false_eq_true, if_false]
    rw [totalCostSpec_eq_sum]
  · intro hnone
    rw [totalCostSpec_eq_sum]
    have hfil : st.filter
        (overlapPred (toFirstDayOfMonth sd) (toFirstDayOfMonth ed) params) = [] := by
      rw [List.filter_eq_nil_iff]
      intro r hr
      simp [hnone r hr]
    rw [hfil]
    rfl

/-- C1 witness: a concrete store and request exercising the theorem. -/
theorem totalCost_matches_spec_witness :
    getTotalCost ⟨"", "Netflix", "01-2024", "12-2024"⟩
        [⟨"Netflix", 500, "11111111-1111-1111-1111-111111111111", ⟨2024, 3, 1⟩, none⟩,
         ⟨"Spotify", 300, "11111111-1111-1111-1111-111111111111", ⟨2024, 3, 1⟩, none⟩] =
      .success 200 (totalCostSpec
        [⟨"Netflix", 500, "11111111-1111-1111-1111-111111111111", ⟨2024, 3, 1⟩, none⟩,
         ⟨"Spotify", 300, "11111111-1111-1111-1111-111111111111", ⟨2024, 3, 1⟩, none⟩]
        "" "Netflix" ⟨2024, 1, 1⟩ ⟨2024, 12, 1⟩) :=
  (totalCost_matches_spec ⟨"", "Netflix", "01-2024", "12-2024"⟩ _ ⟨2024, 1, 1⟩
    ⟨2024, 12, 1⟩ (by decide) (by decide) rfl rfl (Or.inl rfl)).1

/-- C2: the claim says a TotalCost request with a missing (empty) date fails
with a 400 ValidationError before any store access.  The code instead parses
the empty string as Go's zero time and runs the query: here a request with no
`start_date` at all returns 200 with the full sum.  (A malformed non-empty
date is rejected with 400, but a missing one is not.) -/
theorem totalCost_missing_date_not_rejected :
    getTotalCost ⟨"", "", "", "06-2024"⟩
        [⟨"Netflix", 500, "11111111-1111-1111-1111-111111111111", ⟨2024, 1, 1⟩, none⟩] =
      .success 200 500 := rfl

/-- C3: every Create request with a negative price, a missing `service_name`
or `start_date`, a supplied date not matching MM-YYYY, or a path `user_id`
that is not a well-formed UUID is rejected with a 400 before any storage
access: the response does not depend on the store and the store is
unchanged. -/
theorem createSubscription_validation_rejects (key : CompositeKey)
    (req : SubscriptionRequest)
    (h : req.price < 0 ∨ req.serviceName = "" ∨ req.startDate = "" ∨
         (req.startDate ≠ "" ∧ parseMonthYear req.startDate = none) ∨
         (req.endDate ≠ "" ∧ parseMonthYear req.endDate = none) ∨
         isValidUUID key.userId = false) :
    ∃ msg, ∀ st : Store, createSubscription key req st = (st, .failure 400 msg) := by
  by_cases hk : bindCompositeKey key = true
  · by_cases hr : bindSubscriptionRequest req = true
    · have hr' := hr
      simp only [bindSubscriptionRequest, Bool.and_eq_true, bne_iff_ne, ne_eq,
        decide_eq_true_eq] at hr'
      obtain ⟨⟨⟨hsn, hp0⟩, hpge⟩, hsd⟩ := hr'
      have hk' := hk
      simp only [bindCompositeKey, Bool.and_eq_true, bne_iff_ne, ne_eq] at hk'
      obtain ⟨⟨hu1, hu2⟩, hu3⟩ := hk'
      rcases h with h | h | h | ⟨h1', h2'⟩ | ⟨h1', h2'⟩ | h
      · omega
      · exact absurd h hsn
      · exact absurd h hsd
      · refine ⟨"invalid start_date format, expected MM-YYYY", fun st => ?_⟩
        unfold createSubscription
        rw [hk, hr, h2']
        rfl
      · have hpe : parseEndDateField req.endDate = none := by
          unfold parseEndDateField
          rw [if_neg (by simp [h1']), h2']
        cases hps : parseMonthYear req.startDate with
        | none =>
          refine ⟨"invalid start_date format, expected MM-YYYY", fun st => ?_⟩
          unfold createSubscription
          rw [hk, hr, hps]
          rfl
        | some sd =>
          refine ⟨"invalid end_date format, expected MM-YYYY", fun st => ?_⟩
          unfold createSubscription
          rw [hk, hr, hps, hpe]
          rfl
      · rw [h] at hu2
        exact absurd hu2 (by simp)
    · have hr' : bindSubscriptionRequest req = false := by
        revert hr; cases bindSubscriptionRequest req <;> simp
      refine ⟨"binding error", fun st => ?_⟩
      unfold createSubscription
      rw [hk, hr']
      rfl
  · have hk' : bindCompositeKey key = false := by
      revert hk; cases bindCompositeKey key <;> simp
    refine ⟨"binding error", fun st => ?_⟩
    unfold createSubscription
    rw [hk']
    rfl

/-- C3 witness: a Create with a negative price is rejected with a 400 and
leaves the store unchanged. -/
theorem createSubscription_validation_rejects_witness :
    ∃ msg, ∀ st : Store,
      createSubscription ⟨"11111111-1111-1111-1111-111111111111", "Netflix"⟩
        ⟨"Netflix", -1, "01-2024", ""⟩ st = (st, .failure 400 msg) :=
  createSubscription_validation_rejects
    ⟨"11111111-1111-1111-1111-111111111111", "Netflix"⟩
    ⟨"Netflix", -1, "01-2024", ""⟩ (Or.inl (by decide))

/-- C4 counterexample: a List request whose `user_id` query parameter is
`"not-a-uuid"` is not rejected with a 400 validation error — it produces a
500 internal error from the store, and likewise a TotalCost request with
well-formed dates. -/
theorem queryParam_invalid_uuid_counterexample :
    listSubscriptions "not-a-uuid" "" [] = .failure 500 "internal server error" ∧
    getTotalCost ⟨"not-a-uuid", "", "01-2024", "12-2024"⟩ [] =
      .failure 500 "internal server error" := ⟨rfl, rfl⟩

/-- C4 amended: List and TotalCost perform no UUID format check on the
`user_id` query parameter; the raw value reaches the store, whose failure to
cast it surfaces as a 500 InternalError (never a 400 ValidationError). -/
theorem queryParam_uuid_reaches_store (params : FilterParams) (st : Store)
    (hne : params.userId ≠ "") (hcast : uuidCastOk params.userId = false)
    (sd ed : Date)
    (hs : parseMonthYear params.startDate = some sd)
    (he : parseMonthYear params.endDate = some ed) :
    listSubscriptions params.userId params.serviceName st =
      .failure 500 "internal server error" ∧
    getTotalCost params st = .failure 500 "internal server error" := by
  have hbne : (params.userId != "") = true := bne_iff_ne.mpr hne
  constructor
  · unfold listSubscriptions
    rw [hbne, hcast]
    rfl
  · unfold getTotalCost
    rw [hs, he, hbne, hcast]
    rfl

/-- C4 amended witness: a non-UUID `user_id` filter over a non-empty store
yields a 500 for both endpoints. -/
theorem queryParam_uuid_reaches_store_witness :
    listSubscriptions "not-a-uuid" "Netflix"
        [⟨"Netflix", 500, "11111111-1111-1111-1111-111111111111", ⟨2024, 1, 1⟩, none⟩] =
      .failure 500 "internal server error" ∧
    getTotalCost ⟨"not-a-uuid", "Netflix", "01-2024", "12-2024"⟩
        [⟨"Netflix", 500, "11111111-1111-1111-1111-111111111111", ⟨2024, 1, 1⟩, none⟩] =
      .failure 500 "internal server error" :=
  queryParam_uuid_reaches_store ⟨"not-a-uuid", "Netflix", "01-2024", "12-2024"⟩
    [⟨"Netflix", 500, "11111111-1111-1111-1111-111111111111", ⟨2024, 1, 1⟩, none⟩]
    (by decide) (by decide) ⟨2024, 1, 1⟩ ⟨2024, 12, 1⟩ rfl rfl

/-- C5: with a valid key (and, for Update, a valid body), Get/Update/Delete
return a 404 NotFoundError when the key the operation uses matches no stored
row, and succeed when a row matches: Get returns the record, Delete returns a
confirmation echoing the service name and user id, Update returns the
updated record.  (Update keys on the path `user_id` with the body
`service_name`, as claim C10 records.) -/
theorem keyedOps_notFound_or_success (key : CompositeKey)
    (req : SubscriptionRequest) (st : Store) (sd : Date) (edp : Option Date)
    (hk : bindCompositeKey key = true) (hr : bindSubscriptionRequest req = true)
    (hsd : parseMonthYear req.startDate = some sd)
    (hed : parseEndDateField req.endDate = some edp) :
    (st.find? (keyMatch key.userId key.serviceName) = none →
       getSubscription key st = .failure 404 "subscription not found" ∧
       deleteSubscription key st = (st, .failure 404 "subscription not found")) ∧
    (∀ r, st.find? (keyMatch key.userId key.serviceName) = some r →
       getSubscription key st = .success 200 (subOut r) ∧
       deleteSubscription key st =
         (st.filter fun x => !keyMatch key.userId key.serviceName x,
          .success 200 ⟨"subscription deleted", r.serviceName, key.userId⟩)) ∧
    (st.any (keyMatch key.userId req.serviceName) = false →
       updateSubscription key req st = (st, .failure 404 "subscription not found")) ∧
    (st.any (keyMatch key.userId req.serviceName) = true →
       updateSubscription key req st =
         (st.map fun r =>
            if keyMatch key.userId req.serviceName r then
              { r with price := req.price, startDate := toFirstDayOfMonth sd,
                       endDate := edp }
            else r,
          .success 200 ⟨req.serviceName, req.price, key.userId,
            formatMonthYear (toFirstDayOfMonth sd), edp.map formatMonthYear⟩)) := by
  refine ⟨?_, ?_, ?_, ?_⟩
  · intro hnone
    constructor
    · unfold getSubscription
      rw [hk, hnone]
      rfl
    · unfold deleteSubscription
      rw [hk, hnone]
      rfl
  · intro r hr'
    constructor
    · unfold getSubscription
      rw [hk, hr']
      rfl
    · unfold deleteSubscription
      rw [hk, hr']
      rfl
  · intro hany
    rw [updateSubscription_eq key req st sd edp hk hr hsd hed, hany]
    rfl
  · intro hany
    rw [updateSubscription_eq key req st sd edp hk hr hsd hed, if_pos hany]

/-- C5 witness: on a store holding the key, Get returns the stored record. -/
theorem keyedOps_notFound_or_success_witness :
    getSubscription ⟨"11111111-1111-1111-1111-111111111111", "Netflix"⟩
        [⟨"Netflix", 500, "11111111-1111-1111-1111-111111111111", ⟨2024, 1, 1⟩, none⟩] =
      .success 200 (subOut
        ⟨"Netflix", 500, "11111111-1111-1111-1111-111111111111", ⟨2024, 1, 1⟩, none⟩) :=
  ((keyedOps_notFound_or_success
      ⟨"11111111-1111-1111-1111-111111111111", "Netflix"⟩
      ⟨"Netflix", 600, "02-2024", ""⟩
      [⟨"Netflix", 500, "11111111-1111-1111-1111-111111111111", ⟨2024, 1, 1⟩, none⟩]
      ⟨2024, 2, 1⟩ none (by decide) (by decide) rfl rfl).2.1
    ⟨"Netflix", 500, "11111111-1111-1111-1111-111111111111", ⟨2024, 1, 1⟩, none⟩
    rfl).1

/-- C9: a Create or Update request whose body carries `price = 0` is rejected
with a 400 — `binding:"required"` on the integer `price` treats the zero
value as missing — and the store is unchanged. -/
theorem zero_price_rejected (key : CompositeKey) (req : SubscriptionRequest)
    (st : Store) (h : req.price = 0) :
    createSubscription key req st = (st, .failure 400 "binding error") ∧
    updateSubscription key req st = (st, .failure 400 "binding error") := by
  have hr : bindSubscriptionRequest req = false := by
    simp [bindSubscriptionRequest, h]
  by_cases hk : bindCompositeKey key = true
  · constructor
    · unfold createSubscription
      rw [hk, hr]
      rfl
    · unfold updateSubscription
      rw [hk, hr]
      rfl
  · have hk' : bindCompositeKey key = false := by
      revert hk; cases bindCompositeKey key <;> simp
    constructor
    · unfold createSubscription
      rw [hk']
      rfl
    · unfold updateSubscription
      rw [hk']
      rfl

/-- C9 witness: a zero-price Create and Update are both rejected with 400. -/
theorem zero_price_rejected_witness :
    createSubscription ⟨"11111111-1111-1111-1111-111111111111", "Netflix"⟩
        ⟨"Netflix", 0, "01-2024", ""⟩ [] = ([], .failure 400 "binding error") ∧
    updateSubscription ⟨"11111111-1111-1111-1111-111111111111", "Netflix"⟩
        ⟨"Netflix", 0, "01-2024", ""⟩ [] = ([], .failure 400 "binding error") :=
  zero_price_rejected ⟨"11111111-1111-1111-1111-111111111111", "Netflix"⟩
    ⟨"Netflix", 0, "01-2024", ""⟩ [] rfl

/-- C6: any string matching the MM-YYYY pattern (two-digit month 01..12,
four-digit year) survives parse, truncate-to-first-of-month, and reformat
unchanged; consequently a Create with that `start_date` followed by a Get
returns the same `start_date` string. -/
theorem monthYear_roundtrip (s : String) (h : validMMYYYY s = true) :
    (∃ d, parseMonthYear s = some d ∧ formatMonthYear (toFirstDayOfMonth d) = s) ∧
    (∀ (key : CompositeKey) (price : Int) (st : Store),
      bindCompositeKey key = true → price ≠ 0 → 0 ≤ price →
      st.any (keyMatch key.userId "Netflix") = false →
      ∃ out st', createSubscription key ⟨"Netflix", price, s, ""⟩ st =
          (st', .success 201 out) ∧ out.startDate = s ∧
        getSubscription ⟨key.userId, "Netflix"⟩ st' = .success 200 out) := by
  have hrt : ∃ d, parseMonthYear s = some d ∧
      formatMonthYear (toFirstDayOfMonth d) = s := by
    unfold validMMYYYY at h
    split at h
    case h_2 => exact absurd h (by simp)
    case h_1 m1 m2 dash y1 y2 y3 y4 heq =>
      rw [decide_eq_true_eq] at h
      obtain ⟨hdash, h1, h2, h3, h4, h5, h6, hge, hle⟩ := h
      cases s with
      | mk cs =>
        have heq' : cs = [m1, m2, dash, y1, y2, y3, y4] := heq
        subst heq'
        refine ⟨⟨digitVal y1 * 1000 + digitVal y2 * 100 + digitVal y3 * 10 +
                  digitVal y4, digitVal m1 * 10 + digitVal m2, 1⟩, ?_, ?_⟩
        · simp only [parseMonthYear]
          rw [if_pos ⟨hdash, h1, h2, h3, h4, h5, h6⟩]
          rw [if_pos ⟨hge, hle⟩]
        · unfold formatMonthYear toFirstDayOfMonth
          refine congrArg String.mk ?_
          rw [pad2_digits h1 h2, pad4_digits h3 h4 h5 h6, hdash]
          rfl
  refine ⟨hrt, ?_⟩
  obtain ⟨d, hd, hfmt⟩ := hrt
  intro key price st hk hp0 hpge hnodup
  have hsne : s ≠ "" := by
    intro he
    rw [he] at h
    exact absurd h (by decide)
  have hr : bindSubscriptionRequest ⟨"Netflix", price, s, ""⟩ = true := by
    simp [bindSubscriptionRequest, bne_iff_ne, hp0, hpge, hsne]
  have hce : createSubscription key ⟨"Netflix", price, s, ""⟩ st =
      if st.any (keyMatch key.userId "Netflix") then
        (st, .failure 500 "internal server error")
      else
        (st ++ [⟨"Netflix", price, key.userId, toFirstDayOfMonth d, none⟩],
         .success 201 ⟨"Netflix", price, key.userId,
           formatMonthYear (toFirstDayOfMonth d), none⟩) :=
    createSubscription_eq key ⟨"Netflix", price, s, ""⟩ st d none hk hr hd rfl
  rw [hnodup] at hce
  simp only [Bool.false_eq_true, if_false] at hce
  refine ⟨⟨"Netflix", price, key.userId, formatMonthYear (toFirstDayOfMonth d), none⟩,
    st ++ [⟨"Netflix", price, key.userId, toFirstDayOfMonth d, none⟩],
    hce, hfmt, ?_⟩
  have hk2 : bindCompositeKey ⟨key.userId, "Netflix"⟩ = true := by
    have hk' := hk
    simp only [bindCompositeKey, Bool.and_eq_true] at hk' ⊢
    exact ⟨⟨hk'.1.1, hk'.1.2⟩, by decide⟩
  have hfind : (st ++ [(⟨"Netflix", price, key.userId, toFirstDayOfMonth d, none⟩ :
        Subscription)]).find? (keyMatch key.userId "Netflix") =
      some (⟨"Netflix", price, key.userId, toFirstDayOfMonth d, none⟩ :
        Subscription) := by
    rw [List.find?_append]
    have h1 : st.find? (keyMatch key.userId "Netflix") = none := by
      rw [List.find?_eq_none]
      intro x hx hpx
      have hco : st.any (keyMatch key.userId "Netflix") = true :=
        List.any_eq_true.mpr ⟨x, hx, hpx⟩
      rw [hnodup] at hco
      exact absurd hco (by simp)
    rw [h1]
    simp [keyMatch]
  unfold getSubscription
  rw [hk2, hfind]
  rfl

/-- C6 witness: the round trip at the concrete string "03-2024". -/
theorem monthYear_roundtrip_witness :
    ∃ d, parseMonthYear "03-2024" = some d ∧
      formatMonthYear (toFirstDayOfMonth d) = "03-2024" :=
  (monthYear_roundtrip "03-2024" (by decide)).1

/-- C7: a Create or Update whose body has an empty `end_date` succeeds (the
empty string is not a parse failure): the stored record's `end_date` is null
and the response omits the field. -/
theorem empty_endDate_stored_null (key : CompositeKey) (req : SubscriptionRequest)
    (st : Store) (sd : Date)
    (hk : bindCompositeKey key = true) (hr : bindSubscriptionRequest req = true)
    (hsd : parseMonthYear req.startDate = some sd) (hed : req.endDate = "") :
    (st.any (keyMatch key.userId req.serviceName) = false →
      createSubscription key req st =
        (st ++ [⟨req.serviceName, req.price, key.userId, toFirstDayOfMonth sd, none⟩],
         .success 201 ⟨req.serviceName, req.price, key.userId,
           formatMonthYear (toFirstDayOfMonth sd), none⟩)) ∧
    (st.any (keyMatch key.userId req.serviceName) = true →
      updateSubscription key req st =
        (st.map fun r =>
           if keyMatch key.userId req.serviceName r then
             { r with price := req.price, startDate := toFirstDayOfMonth sd,
                      endDate := none }
           else r,
         .success 200 ⟨req.serviceName, req.price, key.userId,
           formatMonthYear (toFirstDayOfMonth sd), none⟩)) := by
  have hpe : parseEndDateField req.endDate = some none := by
    rw [hed]
    rfl
  constructor
  · intro hany
    rw [createSubscription_eq key req st sd none hk hr hsd hpe, hany]
    rfl
  · intro hany
    rw [updateSubscription_eq key req st sd none hk hr hsd hpe, if_pos hany]
    rfl

/-- C7 witness: creating with an empty `end_date` stores a null end date and
omits the field from the response. -/
theorem empty_endDate_stored_null_witness :
    createSubscription ⟨"11111111-1111-1111-1111-111111111111", "Netflix"⟩
        ⟨"Netflix", 500, "03-2024", ""⟩ [] =
      ([⟨"Netflix", 500, "11111111-1111-1111-1111-111111111111", ⟨2024, 3, 1⟩, none⟩],
       .success 201 ⟨"Netflix", 500, "11111111-1111-1111-1111-111111111111",
         "03-2024", none⟩) :=
  (empty_endDate_stored_null ⟨"11111111-1111-1111-1111-111111111111", "Netflix"⟩
    ⟨"Netflix", 500, "03-2024", ""⟩ [] ⟨2024, 3, 1⟩
    (by decide) (by decide) rfl rfl).1 rfl

/-- C8: a successful Update leaves every record's `(user_id, service_name)`
key unchanged — only `price`, `start_date` and `end_date` of the matched
record may differ — and every non-matching record is untouched. -/
theorem update_preserves_keys_and_frame (key : CompositeKey)
    (req : SubscriptionRequest) (st st' : Store) (out : SubscriptionOut)
    (h : updateSubscription key req st = (st', .success 200 out)) :
    List.Forall₂ (fun a b => b.userId = a.userId ∧ b.serviceName = a.serviceName ∧
      (keyMatch key.userId req.serviceName a = false → b = a)) st st' := by
  unfold updateSubscription at h
  split at h
  · simp at h
  split at h
  · simp at h
  split at h
  · simp at h
  split at h
  · simp at h
  split at h
  case isTrue hany =>
    rw [Prod.mk.injEq] at h
    obtain ⟨h1, h2⟩ := h
    subst h1
    rw [List.forall₂_map_right_iff, List.forall₂_same]
    intro x hx
    by_cases hm : keyMatch key.userId req.serviceName x = true
    · rw [if_pos hm]
      refine ⟨rfl, rfl, fun hc => ?_⟩
      rw [hc] at hm
      simp at hm
    · rw [if_neg hm]
      exact ⟨rfl, rfl, fun _ => rfl⟩
  case isFalse hany => simp at h

/-- C8 witness: a concrete successful update preserves the key and touches
nothing else. -/
theorem update_preserves_keys_and_frame_witness :
    List.Forall₂ (fun a b => b.userId = a.userId ∧ b.serviceName = a.serviceName ∧
      (keyMatch "11111111-1111-1111-1111-111111111111" "Netflix" a = false → b = a))
      [⟨"Netflix", 500, "11111111-1111-1111-1111-111111111111", ⟨2024, 1, 1⟩, none⟩,
       ⟨"Spotify", 300, "11111111-1111-1111-1111-111111111111", ⟨2024, 1, 1⟩, none⟩]
      [⟨"Netflix", 600, "11111111-1111-1111-1111-111111111111", ⟨2024, 2, 1⟩, none⟩,
       ⟨"Spotify", 300, "11111111-1111-1111-1111-111111111111", ⟨2024, 1, 1⟩, none⟩] :=
  update_preserves_keys_and_frame
    ⟨"11111111-1111-1111-1111-111111111111", "Netflix"⟩
    ⟨"Netflix", 600, "02-2024", ""⟩
    [⟨"Netflix", 500, "11111111-1111-1111-1111-111111111111", ⟨2024, 1, 1⟩, none⟩,
     ⟨"Spotify", 300, "11111111-1111-1111-1111-111111111111", ⟨2024, 1, 1⟩, none⟩]
    [⟨"Netflix", 600, "11111111-1111-1111-1111-111111111111", ⟨2024, 2, 1⟩, none⟩,
     ⟨"Spotify", 300, "11111111-1111-1111-1111-111111111111", ⟨2024, 1, 1⟩, none⟩]
    ⟨"Netflix", 600, "11111111-1111-1111-1111-111111111111", "02-2024", none⟩
    (by decide)

/-- C10: Update locates the row by the path `user_id` together with the
body's `service_name`, ignoring the path `service_name`: the whole outcome is
independent of the path `service_name`, and success/404 and the updated rows
are determined by `(user_id, body service_name)`. -/
theorem update_keys_on_body_service (uid svcA svcB : String)
    (req : SubscriptionRequest) (st : Store)
    (hA : bindCompositeKey ⟨uid, svcA⟩ = true)
    (hB : bindCompositeKey ⟨uid, svcB⟩ = true) :
    updateSubscription ⟨uid, svcA⟩ req st = updateSubscription ⟨uid, svcB⟩ req st ∧
    (∀ sd edp, bindSubscriptionRequest req = true →
      parseMonthYear req.startDate = some sd →
      parseEndDateField req.endDate = some edp →
      (st.any (keyMatch uid req.serviceName) = false →
        updateSubscription ⟨uid, svcA⟩ req st =
          (st, .failure 404 "subscription not found")) ∧
      (st.any (keyMatch uid req.serviceName) = true →
        updateSubscription ⟨uid, svcA⟩ req st =
          (st.map fun r =>
             if keyMatch uid req.serviceName r then
               { r with price := req.price, startDate := toFirstDayOfMonth sd,
                        endDate := edp }
             else r,
           .success 200 ⟨req.serviceName, req.price, uid,
             formatMonthYear (toFirstDayOfMonth sd), edp.map formatMonthYear⟩))) := by
  constructor
  · unfold updateSubscription
    rw [hA, hB]
  · intro sd edp hr hsd hed
    have heA : updateSubscription ⟨uid, svcA⟩ req st =
        if st.any (keyMatch uid req.serviceName) then
          (st.map fun r =>
             if keyMatch uid req.serviceName r then
               { r with price := req.price, startDate := toFirstDayOfMonth sd,
                        endDate := edp }
             else r,
           .success 200 ⟨req.serviceName, req.price, uid,
             formatMonthYear (toFirstDayOfMonth sd), edp.map formatMonthYear⟩)
        else (st, .failure 404 "subscription not found") :=
      updateSubscription_eq ⟨uid, svcA⟩ req st sd edp hA hr hsd hed
    constructor
    · intro hany
      rw [heA, hany]
      rfl
    · intro hany
      rw [heA, if_pos hany]

/-- C10 witness: a PUT to path service "Old" with body service "Netflix"
behaves exactly like a PUT to path service "Netflix". -/
theorem update_keys_on_body_service_witness :
    updateSubscription ⟨"11111111-1111-1111-1111-111111111111", "Old"⟩
        ⟨"Netflix", 600, "02-2024", ""⟩
        [⟨"Netflix", 500, "11111111-1111-1111-1111-111111111111", ⟨2024, 1, 1⟩, none⟩] =
      updateSubscription ⟨"11111111-1111-1111-1111-111111111111", "Netflix"⟩
        ⟨"Netflix", 600, "02-2024", ""⟩
        [⟨"Netflix", 500, "11111111-1111-1111-1111-111111111111", ⟨2024, 1, 1⟩, none⟩] :=
  (update_keys_on_body_service "11111111-1111-1111-1111-111111111111" "Old" "Netflix"
    ⟨"Netflix", 600, "02-2024", ""⟩
    [⟨"Netflix", 500, "11111111-1111-1111-1111-111111111111", ⟨2024, 1, 1⟩, none⟩]
    (by decide) (by decide)).1

end SubService
